import Mathlib

/-!
Verification development for `luminoth/train.py`, a PyTorch object-detection
training driver.  The file is orchestration glue: argument parsing, dataset
dispatch by name, optional Google-Cloud-Storage streaming, a per-epoch
train / scheduler-step / checkpoint / evaluate loop, and distributed process
launch.  We embed the control flow of that file shallowly:

* pure dispatch code (`get_dataset`, the world-size checks, the launch
  selection, the GCS preprocessing) becomes Lean functions; a call to
  Python's `exit()` is embedded as `Except.error msg` (the message that is
  printed before the process terminates), and normal completion as
  `Except.ok`;
* the body of `main_worker`'s training loop is embedded as the list of
  framework calls it performs, in order (an event trace); the framework
  calls themselves (`train_one_epoch`, `evaluate`, `lr_scheduler.step`,
  `utils.save_on_master`) are opaque events;
* the scheduler's internal state, which checkpointing saves and resuming
  restores verbatim via `state_dict` / `load_state_dict`, is abstracted to
  its step counter and interpreted over the event trace.
-/

namespace Luminoth

/-- Parsed command-line arguments of `train.py`, with the `argparse`
defaults from the `__main__` block.  `distributed` is not a flag: it is set
on the args object by `utils.init_distributed_mode` (a module outside this
file), so it appears here as an ordinary field. -/
structure Args where
  data_path : String := "/datasets01/COCO/022719/"
  dataset : String := "coco"
  model : String := "fasterrcnn_resnet50_fpn"
  device : String := "cuda"
  batch_size : Nat := 2
  epochs : Nat := 13
  workers : Nat := 4
  lr : Rat := 2 / 100
  momentum : Rat := 9 / 10
  weight_decay : Rat := 1 / 10000
  lr_step_size : Nat := 8
  lr_steps : List Nat := [8, 11]
  lr_gamma : Rat := 1 / 10
  print_freq : Nat := 20
  output_dir : String := "."
  resume : String := ""
  aspect_ratio_group_factor : Int := 0
  test_only : Bool := false
  pretrained : Bool := false
  world_size : Int := 1
  node_rank : Int := 0
  dist_url : String := "env://"
  local_gpus : List Int := [0]
  distributed : Bool := false
deriving DecidableEq, Repr

/-- Tag for the dataset construction function selected by `get_dataset`
(the functions themselves, `get_coco` and `get_coco_kp`, live in
`datasets.coco_utils` and build the actual dataset object). -/
inductive DatasetFn where
  | get_coco
  | get_coco_kp
deriving DecidableEq, Repr

/-- Embedding of `get_dataset` (train.py lines 32-42), restricted to its
dispatch core: the name is resolved to a construction function and a class
count, and an unrecognized name prints a message and calls `exit()`
(embedded as `Except.error`).  The remaining parameters (`image_set`,
`transform`, `data_path`, `gs_bucket`) are forwarded unchanged to the
selected construction function and do not influence the dispatch. -/
def get_dataset (name : String) : Except String (DatasetFn × Nat) :=
  if name = "coco" then .ok (.get_coco, 91)
  else if name = "coco_kp" then .ok (.get_coco_kp, 2)
  else .error "Dataset must be coco or coco_kp"

/-- Embedding of the world-size fixup in the `__main__` block
(train.py lines 230-235): if `--world-size` was left at its default 1 while
several local GPUs are listed, the world size becomes the GPU count;
afterwards a non-default world size smaller than the GPU count prints a
message and calls `exit()`.  The message reproduces the source's two
adjacent string literals, which concatenate without a space. -/
def resolve_world_size (a : Args) : Except String Args :=
  let a :=
    if a.world_size = 1 ∧ a.local_gpus.length > 1 then
      { a with world_size := (a.local_gpus.length : Int) }
    else a
  if a.world_size ≠ 1 ∧ a.world_size < (a.local_gpus.length : Int) then
    .error "--world-size should be equal or larger thanthe number of gpus selected in --local-gpus"
  else
    .ok a

/-- How the `__main__` block launches the worker(s): either
`multiprocessing.spawn` with `nprocs` processes, or a direct in-process call
`main_worker(local_rank, args)`. -/
inductive LaunchDecision where
  | spawn (nprocs : Nat)
  | single (local_rank : Int)
deriving DecidableEq, Repr

/-- Embedding of the launch selection (train.py lines 239-243):
`multiprocessing.spawn` over `len(args.local_gpus)` processes when
`args.node_rank != 0 or len(args.local_gpus) > 1`, otherwise a direct call
of `main_worker(args.local_gpus[0], args)`.  (`argparse` guarantees
`local_gpus` is non-empty: the flag has `nargs` requiring at least one
value and the default is `[0]`; `headI` returns that first element.) -/
def launch_select (a : Args) : LaunchDecision :=
  if a.node_rank ≠ 0 ∨ a.local_gpus.length > 1 then
    .spawn a.local_gpus.length
  else
    .single a.local_gpus.headI

/-- Embedding of the tail of the `__main__` block: resolve the world size
(which may terminate the process) and then decide how to launch. -/
def main (a : Args) : Except String (Args × LaunchDecision) := do
  let a ← resolve_world_size a
  return (a, launch_select a)

/-- Result of `urllib.parse.urlparse` on the `--data-path` argument, reduced
to the three components `main_worker` inspects: `scheme`, `netloc` and
`path`.  For a URL of the form `gs://bucket/obj`, `urlparse` yields scheme
`gs`, netloc `bucket` and path `/obj`. -/
structure UrlParts where
  scheme : String
  netloc : String
  path : String
deriving DecidableEq, Repr

/-- Embedding of the cloud-storage preprocessing in `main_worker`
(train.py lines 73-86).  Input: the parsed `--data-path` URL and the raw
data path; output: the data path that is passed to the dataset
constructors, and the bucket handle (`some netloc` stands for
`client.get_bucket(url_path.netloc)`, `none` for `gs_bucket = None`).
For scheme `gs` the code sets `args.data_path = url_path.path[1:]`
(dropping the first character, per the comment: remove leftover slash);
for any other scheme the data path is untouched and no client is built. -/
def gs_preprocess (url_path : UrlParts) (data_path : String) : String × Option String :=
  if url_path.scheme = "gs" then
    (url_path.path.drop 1, some url_path.netloc)
  else
    (data_path, none)

/-- Framework calls performed by `main_worker`'s training loop, in trace
order.  `save_on_master` is `utils.save_on_master(record, path)`; the
record's field names and the epoch index of the loop iteration that issues
the call are carried explicitly.  Modelled from the spec:
`utils.save_on_master`, `engine.train_one_epoch` and `engine.evaluate` live
in modules outside this file; per the spec, `save_on_master` performs the
write only on the rank-zero process (checkpoints are written only by the
rank-zero process), and the train / evaluate passes are opaque calls. -/
inductive Ev where
  | set_epoch (epoch : Nat)
  | train_one_epoch (epoch : Nat)
  | lr_scheduler_step
  | save_on_master (fields : List String) (epoch : Nat) (path : String)
  | evaluate
deriving DecidableEq, Repr

/-- Field names of the checkpoint record built at train.py lines 157-161. -/
def ckpt_fields : List String := ["model", "optimizer", "lr_scheduler", "args"]

/-- Embedding of `os.path.join(a, b)` for the two-argument POSIX case: an
absolute second component replaces the first, an empty first component
yields the second, and otherwise a separator is inserted unless already
present. -/
def os_path_join (a b : String) : String :=
  if b.startsWith "/" then b
  else if a = "" then b
  else if a.endsWith "/" then a ++ b
  else a ++ "/" ++ b

/-- Checkpoint file path for an epoch:
`os.path.join(args.output_dir, model_<epoch>.pth)` (train.py line 162). -/
def ckpt_path (a : Args) (epoch : Nat) : String :=
  os_path_join a.output_dir ("model_" ++ toString epoch ++ ".pth")

/-- Trace of one iteration of the training loop (train.py lines 151-165):
optionally `train_sampler.set_epoch` (distributed only), then
`train_one_epoch`, then `lr_scheduler.step()`, then — only when
`args.output_dir` is truthy, i.e. non-empty — `utils.save_on_master` of the
four-field checkpoint record, then `evaluate`. -/
def epoch_body (a : Args) (epoch : Nat) : List Ev :=
  (if a.distributed then [.set_epoch epoch] else []) ++
  [.train_one_epoch epoch, .lr_scheduler_step] ++
  (if a.output_dir ≠ "" then [.save_on_master ckpt_fields epoch (ckpt_path a epoch)] else []) ++
  [.evaluate]

/-- Trace of `for epoch in range(n): ...` — the loop of train.py
lines 151-165 run for epochs `0, 1, ..., n-1` in order. -/
def train_loop (a : Args) : Nat → List Ev
  | 0 => []
  | n + 1 => train_loop a n ++ epoch_body a n

/-- Event trace of `main_worker` (train.py lines 69-169).  The dataset name
is resolved twice (train and val split), and an unrecognized name calls
`exit()` inside `get_dataset` (the `Except.error` propagates).  Data-loader
and model construction, and the `load_state_dict` calls on resume, emit no
loop events; the resume restoration is interpreted by `sched_run` below.
With `--test-only` the worker runs one evaluation and returns; otherwise it
runs the training loop for `args.epochs` epochs.  Both paths return
normally (`Except.ok`), i.e. with the same process exit status. -/
def main_worker (a : Args) : Except String (List Ev) := do
  let _ ← get_dataset a.dataset
  let _ ← get_dataset a.dataset
  if a.test_only then
    return [.evaluate]
  else
    return train_loop a a.epochs

/-- Interpretation of the epoch-level learning-rate scheduler state over an
event trace.  The `MultiStepLR` internal state is abstracted to its step
counter: `lr_scheduler.step()` advances it by one; `save_on_master` records
the current counter, paired with the epoch index, into the written
checkpoint (the record holds `lr_scheduler.state_dict()`); resuming with
`load_state_dict` restores a saved counter verbatim, which is modelled by
starting the interpretation from the restored value `s`.  Result: the final
counter and the list of `(epoch, saved counter)` checkpoints in write
order. -/
def sched_run (s : Nat) : List Ev → Nat × List (Nat × Nat)
  | [] => (s, [])
  | Ev.lr_scheduler_step :: r => sched_run (s + 1) r
  | Ev.save_on_master _ e _ :: r =>
      let t := sched_run s r
      (t.1, (e, s) :: t.2)
  | _ :: r => sched_run s r

/-- Final scheduler step counter of a run of `main_worker`'s training loop
that starts from scheduler state `init` (0 for a fresh run; the restored
counter for a resumed run). -/
def final_sched (init : Nat) (a : Args) : Nat :=
  (sched_run init (train_loop a a.epochs)).1

/-- Scheduler states recorded in the checkpoints of an uninterrupted
(fresh-start) run. -/
def run_checkpoints (a : Args) : List (Nat × Nat) :=
  (sched_run 0 (train_loop a a.epochs)).2

/-- Configuration of a `torch.utils.data.DataLoader` as constructed by
`main_worker`, reduced to the arguments the code passes: the `batch_size`
argument (absent when a batch sampler is used), the plain sampler kind, the
batch-sampler kind paired with its batch size, and `num_workers`. -/
structure DataLoaderCfg where
  batch_size : Option Nat
  sampler : Option String
  batch_sampler : Option (String × Nat)
  num_workers : Nat
deriving DecidableEq, Repr

/-- Embedding of data-loader construction (train.py lines 96-117):
distributed runs use `DistributedSampler` for both splits, otherwise
`RandomSampler` / `SequentialSampler`; the train loader receives a batch
sampler (`GroupedBatchSampler` when `args.aspect_ratio_group_factor >= 0`,
else a plain `BatchSampler`, both sized `args.batch_size`); the test loader
is built with the literal `batch_size=1`.  Returns (train loader, test
loader). -/
def make_data_loaders (a : Args) : DataLoaderCfg × DataLoaderCfg :=
  let samplers :=
    if a.distributed then ("DistributedSampler", "DistributedSampler")
    else ("RandomSampler", "SequentialSampler")
  let train_batch_sampler :=
    if a.aspect_ratio_group_factor ≥ 0 then ("GroupedBatchSampler", a.batch_size)
    else ("BatchSampler", a.batch_size)
  ({ batch_size := none, sampler := some samplers.1,
     batch_sampler := some train_batch_sampler, num_workers := a.workers },
   { batch_size := some 1, sampler := some samplers.2,
     batch_sampler := none, num_workers := a.workers })

/-- Predicate picking out the checkpoint-write events of a trace. -/
def is_save : Ev → Bool
  | .save_on_master _ _ _ => true
  | _ => false

/-! Theorems. -/

/-- C1: `get_dataset` resolves the name `coco` to class count 91 and
`coco_kp` to class count 2; any other name prints a message and terminates
the process via `exit()` instead of raising. -/
theorem get_dataset_dispatch_spec :
    get_dataset "coco" = .ok (.get_coco, 91) ∧
    get_dataset "coco_kp" = .ok (.get_coco_kp, 2) ∧
    ∀ name, name ≠ "coco" → name ≠ "coco_kp" →
      get_dataset name = .error "Dataset must be coco or coco_kp" := by
  refine ⟨rfl, rfl, fun name h1 h2 => ?_⟩
  unfold get_dataset
  rw [if_neg h1, if_neg h2]

/-- C1 witness: the unrecognized name `voc` terminates with the message. -/
theorem get_dataset_dispatch_spec_witness :
    get_dataset "voc" = .error "Dataset must be coco or coco_kp" :=
  get_dataset_dispatch_spec.2.2 "voc" (by decide) (by decide)

/-- C2: when the parsed world size is the default 1 and more than one local
GPU is listed, the effective world size becomes the number of listed GPUs
and the program proceeds (no termination). -/
theorem world_size_defaulted_to_gpu_count (a : Args)
    (h1 : a.world_size = 1) (h2 : a.local_gpus.length > 1) :
    resolve_world_size a = .ok { a with world_size := (a.local_gpus.length : Int) } := by
  simp only [resolve_world_size, if_pos (And.intro h1 h2)]
  rw [if_neg]
  rintro ⟨-, hlt⟩
  simp at hlt

/-- C2 witness: with the default world size 1 and two listed GPUs, the run
proceeds with effective world size 2. -/
theorem world_size_defaulted_to_gpu_count_witness :
    resolve_world_size { local_gpus := [0, 1] } =
      .ok { local_gpus := [0, 1], world_size := 2 } :=
  world_size_defaulted_to_gpu_count { local_gpus := [0, 1] } rfl (by decide)

/-- C3: a non-default world size strictly smaller than the number of listed
local GPUs makes the program print an explanatory message and terminate
before any launch decision is made. -/
theorem world_size_too_small_terminates (a : Args)
    (h1 : a.world_size ≠ 1) (h2 : a.world_size < (a.local_gpus.length : Int)) :
    main a =
      .error "--world-size should be equal or larger thanthe number of gpus selected in --local-gpus" := by
  have hcond : ¬(a.world_size = 1 ∧ a.local_gpus.length > 1) := fun hc => h1 hc.1
  have hres : resolve_world_size a =
      .error "--world-size should be equal or larger thanthe number of gpus selected in --local-gpus" := by
    simp only [resolve_world_size, if_neg hcond]
    exact if_pos ⟨h1, h2⟩
  simp [main, hres]

/-- C3 witness: world size 2 with three listed GPUs terminates with the
message. -/
theorem world_size_too_small_terminates_witness :
    main { world_size := 2, local_gpus := [0, 1, 2] } =
      .error "--world-size should be equal or larger thanthe number of gpus selected in --local-gpus" :=
  world_size_too_small_terminates { world_size := 2, local_gpus := [0, 1, 2] }
    (by decide) (by decide)

/-- C4: for a data path whose URL scheme is `gs`, `main_worker` strips the
leading path separator from the object path and passes the result together
with the bucket handle; for every other scheme the data path is passed
through unchanged and no bucket handle is created. -/
theorem gs_preprocess_spec (u : UrlParts) (dp : String) :
    (u.scheme = "gs" → ∀ rest, u.path = "/" ++ rest →
      gs_preprocess u dp = (rest, some u.netloc)) ∧
    (u.scheme ≠ "gs" → gs_preprocess u dp = (dp, none)) := by
  constructor
  · intro hs rest hp
    simp [gs_preprocess, hs, hp, String.drop_eq]
  · intro hs
    simp [gs_preprocess, hs]

/-- C4 witness: `gs://bucket/detection/coco` parses to scheme `gs`, netloc
`bucket`, path `/detection/coco`; the worker passes `detection/coco` with
the bucket handle. -/
theorem gs_preprocess_spec_witness :
    gs_preprocess ⟨"gs", "bucket", "/detection/coco"⟩ "gs://bucket/detection/coco" =
      ("detection/coco", some "bucket") :=
  (gs_preprocess_spec ⟨"gs", "bucket", "/detection/coco"⟩
    "gs://bucket/detection/coco").1 rfl "detection/coco" rfl

/-- C7 counterexample: with node rank 1 and a single listed GPU the program
spawns via the multiprocessing utility instead of calling `main_worker`
in-process as the claim states for the at-most-one-device case. -/
theorem launch_select_claim_counterexample :
    (Args.local_gpus { node_rank := 1 }).length = 1 ∧
    launch_select { node_rank := 1 } = .spawn 1 ∧
    LaunchDecision.spawn 1 ≠ .single 0 := by
  refine ⟨rfl, ?_, by decide⟩
  decide

/-- C7 amended: the program spawns one worker process per listed device
when the node rank is nonzero or more than one device is listed; it runs
`main_worker` in a single process on the first listed device only when the
node rank is zero and at most one device is listed. -/
theorem launch_select_spec (a : Args) :
    (a.node_rank ≠ 0 ∨ a.local_gpus.length > 1 →
      launch_select a = .spawn a.local_gpus.length) ∧
    (a.node_rank = 0 ∧ a.local_gpus.length ≤ 1 →
      launch_select a = .single a.local_gpus.headI) := by
  constructor
  · intro h
    simp only [launch_select, if_pos h]
  · rintro ⟨h1, h2⟩
    have hn : ¬(a.node_rank ≠ 0 ∨ a.local_gpus.length > 1) := by
      push_neg
      exact ⟨h1, by omega⟩
    simp only [launch_select, if_neg hn]

/-- C7 witness: three listed GPUs on node rank 0 spawn three workers; the
default argument set runs a single in-process worker on GPU 0. -/
theorem launch_select_spec_witness :
    launch_select { local_gpus := [0, 1, 2] } = .spawn 3 ∧
    launch_select {} = .single 0 := by
  constructor
  · exact (launch_select_spec { local_gpus := [0, 1, 2] }).1 (Or.inr (by decide))
  · exact (launch_select_spec {}).2 (by decide)

/-- C8: with `--test-only` set (and a recognized dataset name),
`main_worker` performs exactly one evaluation and returns — no training
pass, scheduler step or checkpoint write appears in its trace — and it
returns normally, just as a training run does, so the process exit status
does not distinguish the two paths. -/
theorem test_only_evaluates_and_returns (a : Args)
    (hd : a.dataset = "coco" ∨ a.dataset = "coco_kp") (ht : a.test_only = true) :
    main_worker a = .ok [.evaluate] ∧
    (main_worker { a with test_only := false }).isOk = true := by
  obtain ⟨v, hv⟩ : ∃ v, get_dataset a.dataset = .ok v := by
    rcases hd with h | h
    · exact ⟨(.get_coco, 91), by rw [h]; rfl⟩
    · exact ⟨(.get_coco_kp, 2), by rw [h]; rfl⟩
  have hd2 : ({ a with test_only := false } : Args).dataset = a.dataset := rfl
  constructor
  · simp only [main_worker, hv, ht]
    rfl
  · simp only [main_worker, hd2, hv]
    rfl

/-- C8 witness: the default arguments with the test-only flag evaluate once
and return with the same success status as the training path. -/
theorem test_only_evaluates_and_returns_witness :
    main_worker { test_only := true } = .ok [.evaluate] ∧
    (main_worker { ({ test_only := true } : Args) with test_only := false }).isOk = true :=
  test_only_evaluates_and_returns { test_only := true } (Or.inl rfl) rfl

/-- C10: for every argument set, the evaluation data loader is built with
the literal batch size 1, independent of `--batch-size`; the configured
batch size only enters through the training loader's batch sampler. -/
theorem test_loader_batch_size_one (a : Args) :
    (make_data_loaders a).2.batch_size = some 1 ∧
    ∃ kind, (make_data_loaders a).1.batch_sampler = some (kind, a.batch_size) := by
  unfold make_data_loaders
  by_cases h : a.aspect_ratio_group_factor ≥ 0 <;> simp [h]

/-- Helper: with a non-empty output directory, the checkpoint writes of a
training-loop trace are exactly one per epoch, in epoch order, each with
the four checkpoint fields and the epoch-templated path. -/
theorem train_loop_saves (a : Args) (h : a.output_dir ≠ "") (n : Nat) :
    (train_loop a n).filter is_save =
      (List.range n).map (fun e => Ev.save_on_master ckpt_fields e (ckpt_path a e)) := by
  induction n with
  | zero => rfl
  | succ n ih =>
      rw [train_loop, List.filter_append, ih, List.range_succ, List.map_append]
      congr 1
      rcases Bool.eq_false_or_eq_true a.distributed with hd | hd <;>
        simp [epoch_body, is_save, hd, h]

/-- C5 (amended: the write happens only when the configured output
directory is non-empty): in that case the checkpoint writes of a run are
exactly one per epoch, each record holding exactly the four fields
`model`, `optimizer`, `lr_scheduler`, `args`, at the path templated by the
epoch index, issued through `save_on_master`, i.e. written only by the
rank-zero process. -/
theorem checkpoint_writes_per_epoch (a : Args) (h : a.output_dir ≠ "") :
    (train_loop a a.epochs).filter is_save =
      (List.range a.epochs).map
        (fun e => Ev.save_on_master ckpt_fields e (ckpt_path a e)) :=
  train_loop_saves a h a.epochs

/-- C5 witness: the default argument set (output directory `.`, 13 epochs)
writes exactly one four-field checkpoint per epoch. -/
theorem checkpoint_writes_per_epoch_witness :
    (train_loop {} (Args.epochs {})).filter is_save =
      (List.range (Args.epochs {})).map
        (fun e => Ev.save_on_master ckpt_fields e (ckpt_path {} e)) :=
  checkpoint_writes_per_epoch {} (by decide)

/-- C5 counterexample: with `--output-dir` set to the empty string the
training loop of a one-epoch run writes no checkpoint at all, refuting
"for every training epoch, exactly one checkpoint record is written". -/
theorem checkpoint_claim_counterexample :
    Args.epochs { output_dir := "", epochs := 1 } = 1 ∧
    (train_loop { output_dir := "", epochs := 1 } 1).filter is_save = [] :=
  ⟨rfl, rfl⟩

/-- Helper: with a non-empty output directory, every epoch index below `n`
contributes the consecutive block train pass, scheduler step, checkpoint
save, evaluation to the loop trace. -/
theorem train_loop_epoch_order (a : Args) (h : a.output_dir ≠ "") (e : Nat) :
    ∀ n, e < n → ∃ pre suf, train_loop a n =
      pre ++ [Ev.train_one_epoch e, Ev.lr_scheduler_step,
              Ev.save_on_master ckpt_fields e (ckpt_path a e), Ev.evaluate] ++ suf := by
  intro n hn
  induction n with
  | zero => omega
  | succ n ih =>
      by_cases hce : e = n
      · subst hce
        refine ⟨train_loop a e ++ (if a.distributed then [Ev.set_epoch e] else []), [], ?_⟩
        rw [train_loop]
        simp [epoch_body, h]
      · obtain ⟨pre, suf, hps⟩ := ih (by omega)
        exact ⟨pre, suf ++ epoch_body a n, by rw [train_loop, hps]; simp⟩

/-- C6 (amended: the checkpoint save in the sequence happens only when the
configured output directory is non-empty): in that case, for every epoch
index from 0 up to the configured epoch count, the loop performs, in this
order, one training pass, one scheduler step, one checkpoint save and one
evaluation. -/
theorem epoch_sequence_order (a : Args) (h : a.output_dir ≠ "") (e : Nat)
    (he : e < a.epochs) :
    ∃ pre suf, train_loop a a.epochs =
      pre ++ [Ev.train_one_epoch e, Ev.lr_scheduler_step,
              Ev.save_on_master ckpt_fields e (ckpt_path a e), Ev.evaluate] ++ suf :=
  train_loop_epoch_order a h e a.epochs he

/-- C6 witness: with the default arguments, epoch 0 performs the train
pass, scheduler step, checkpoint save and evaluation consecutively. -/
theorem epoch_sequence_order_witness :
    ∃ pre suf, train_loop {} (Args.epochs {}) =
      pre ++ [Ev.train_one_epoch 0, Ev.lr_scheduler_step,
              Ev.save_on_master ckpt_fields 0 (ckpt_path {} 0), Ev.evaluate] ++ suf :=
  epoch_sequence_order {} (by decide) 0 (by decide)

/-- C6 counterexample: with `--output-dir` set to the empty string a
two-epoch run performs train pass, scheduler step and evaluation per epoch
but no checkpoint save anywhere, refuting the claimed four-step sequence. -/
theorem epoch_order_claim_counterexample :
    train_loop { output_dir := "", epochs := 2 } 2 =
      [Ev.train_one_epoch 0, Ev.lr_scheduler_step, Ev.evaluate,
       Ev.train_one_epoch 1, Ev.lr_scheduler_step, Ev.evaluate] ∧
    (train_loop { output_dir := "", epochs := 2 } 2).filter is_save = [] :=
  ⟨rfl, rfl⟩

/-- Helper: the scheduler interpretation distributes over trace
concatenation. -/
theorem sched_run_append (s : Nat) (l1 l2 : List Ev) :
    sched_run s (l1 ++ l2) =
      ((sched_run (sched_run s l1).1 l2).1,
       (sched_run s l1).2 ++ (sched_run (sched_run s l1).1 l2).2) := by
  induction l1 generalizing s with
  | nil => simp [sched_run]
  | cons ev r ih => cases ev <;> simp [sched_run, ih]

/-- Helper: one epoch body advances the scheduler once and (with a
non-empty output directory) checkpoints the advanced counter. -/
theorem sched_run_epoch_body (a : Args) (h : a.output_dir ≠ "") (s e : Nat) :
    sched_run s (epoch_body a e) = (s + 1, [(e, s + 1)]) := by
  rcases Bool.eq_false_or_eq_true a.distributed with hd | hd <;>
    simp [epoch_body, hd, h, sched_run]

/-- Helper: a training loop of `n` epochs started from scheduler counter
`s` ends at counter `s + n`, and its checkpoints record, for each epoch
`e < n`, the counter `s + e + 1`. -/
theorem sched_run_train_loop (a : Args) (h : a.output_dir ≠ "") (s : Nat) :
    ∀ n, sched_run s (train_loop a n) =
      (s + n, (List.range n).map fun e => (e, s + e + 1)) := by
  intro n
  induction n with
  | zero => simp [train_loop, sched_run]
  | succ n ih =>
      rw [train_loop, sched_run_append, ih, sched_run_epoch_body a h]
      simp [List.range_succ, Nat.add_assoc]

/-- C9 counterexample: an uninterrupted one-epoch run ends with scheduler
counter 1 and its only checkpoint (epoch 0) stores counter 1; resuming that
checkpoint restores counter 1, but the epoch loop restarts at index 0 and
runs the configured epoch count again, ending at counter 2 — not the
counter 1 an uninterrupted run has at the same end-of-training boundary. -/
theorem resume_claim_counterexample :
    run_checkpoints { epochs := 1 } = [(0, 1)] ∧
    final_sched 0 { epochs := 1 } = 1 ∧
    final_sched 1 { epochs := 1 } = 2 :=
  ⟨rfl, rfl, rfl⟩

/-- C9 (amended): resuming restores exactly the checkpointed scheduler
state (the checkpoint of epoch `e` stores step counter `e + 1`), but the
epoch loop restarts at index 0 and runs `args.epochs` further epochs on top
of the restored state; the resumed run therefore matches the uninterrupted
run's final scheduler state only when its configured epoch count is reduced
by the number of epochs already completed. -/
theorem resume_with_remaining_epochs (a : Args) (h : a.output_dir ≠ "")
    (e sv : Nat) (hm : (e, sv) ∈ run_checkpoints a) :
    sv = e + 1 ∧ e < a.epochs ∧
    final_sched sv { a with epochs := a.epochs - (e + 1) } = final_sched 0 a := by
  unfold run_checkpoints at hm
  rw [sched_run_train_loop a h 0 a.epochs] at hm
  simp only [List.mem_map, List.mem_range] at hm
  obtain ⟨i, hi, heq⟩ := hm
  injection heq with h1 h2
  have h3 : ({ a with epochs := a.epochs - (e + 1) } : Args).output_dir ≠ "" := h
  refine ⟨by omega, by omega, ?_⟩
  unfold final_sched
  rw [sched_run_train_loop _ h3 sv, sched_run_train_loop a h 0]
  show sv + (a.epochs - (e + 1)) = 0 + a.epochs
  omega

/-- C9 witness: for a two-epoch run, the epoch-0 checkpoint stores counter
1, and resuming it with the epoch count reduced to the one remaining epoch
reaches the uninterrupted run's final scheduler state. -/
theorem resume_with_remaining_epochs_witness :
    (1 : Nat) = 0 + 1 ∧ 0 < Args.epochs { epochs := 2 } ∧
    final_sched 1 { ({ epochs := 2 } : Args) with
        epochs := Args.epochs { epochs := 2 } - (0 + 1) } =
      final_sched 0 { epochs := 2 } :=
  resume_with_remaining_epochs { epochs := 2 } (by decide) 0 1 (by decide)

end Luminoth
